import Mathlib

/-!
Shallow embedding of `query_tcga/query_tcga.py` (the TCGA-BLCA query/download
helper module) and proofs about its filter-construction, validation,
pagination and verification logic.

Network responses (the GDC API's field mapping, facet value buckets and
server-reported page counts), the filesystem and the external `gdc-client`
tool are environments of the Python code; they enter the embedding as
explicit parameters (lists of field names, lists of valid option values,
an existence predicate on paths, a sequence of subprocess exit codes).
Everything else is translated directly from the source.
-/

namespace QueryTcga

/-- Python exceptions that the modelled code can raise.
`typeError` models the `TypeError` raised by iterating over `None`;
`valueError` models `raise ValueError(msg)`; `calledProcessError` models
`subprocess.CalledProcessError` raised by `subprocess.check_call` on a
non-zero exit status; `indexError` models `del lst[0]` on an empty list. -/
inductive PyError where
  | typeError
  | valueError (msg : String)
  | calledProcessError (code : Nat)
  | indexError
deriving DecidableEq, Repr

/-- The Python values that flow into `_convert_to_list` in this module:
`None`, strings, lists of strings and tuples of strings. -/
inductive PyVal where
  | none
  | str (s : String)
  | list (xs : List String)
  | tuple (xs : List String)
deriving DecidableEq, Repr

/-- Python truthiness test `not(x)` (negated): `None`, `''`, `[]` and `()`
are falsy. -/
def pyFalsy : PyVal → Bool
  | .none => true
  | .str s => s == ""
  | .list xs => xs.isEmpty
  | .tuple xs => xs.isEmpty

/-- The `_convert_to_list` (query_tcga.py lines 84-105): falsy input returns
`None`; a list is returned as is; a string is wrapped in a singleton list;
anything else (a tuple here) is converted with `list(x)`. -/
def _convert_to_list (x : PyVal) : Option (List String) :=
  if pyFalsy x then
    none
  else
    match x with
    | .none => none
    | .str s => some [s]
    | .list xs => some xs
    | .tuple xs => some xs

/-- Re-embed the return value of `_convert_to_list` as a Python value
(`None` stays `None`, a list stays a list), so the function can be applied
to its own output. -/
def toPyVal : Option (List String) → PyVal
  | Option.none => .none
  | Option.some xs => .list xs

/-- The default `message` argument of `_verify_data_list`. -/
def defaultInvalidMsg : String := "At least one value given was invalid"

/-- The `_verify_data_list` (lines 249-265): normalize `data_list` with
`_convert_to_list`, then check each element against `allowed_values`.
When normalization yields `None`, the generator expression
`all(el in allowed_values for el in data_list)` iterates over `None` and
raises `TypeError`.  When some element is not allowed, the bad values are
collected in input order and raised in a `ValueError` joined by `', '`. -/
def _verify_data_list (data_list : PyVal) (allowed_values : List String)
    (message : String) : Except PyError Bool :=
  match _convert_to_list data_list with
  | Option.none => .error .typeError
  | Option.some xs =>
      if xs.all (fun el => allowed_values.contains el) then
        .ok true
      else
        .error (.valueError (message ++ ": " ++
          String.intercalate ", " (xs.filter (fun el => !(allowed_values.contains el)))))

/-- The `VALID_ENDPOINTS` (line 34). -/
def VALID_ENDPOINTS : List String := ["files", "projects", "cases", "annotations"]

/-- The `subprocess.check_call`: returns 0 when the command exits with status 0,
raises `CalledProcessError` otherwise. -/
def check_call (exitCode : Nat) : Except PyError Nat :=
  if exitCode = 0 then .ok 0 else .error (.calledProcessError exitCode)

/-- The subprocess-invocation skeleton of `_download_files` (lines 368-370):
`if subprocess.check_call(exe_bash): subprocess.call(exe_bash)`.
`exit1` is the exit status the external tool would return on a first
invocation, `exit2` on a second.  The result is the number of times the tool
was invoked, paired with the error that propagated (if any).  The retry
branch is kept exactly as written: it fires only when `check_call` returns a
truthy value. -/
def _download_files_toolCalls (exit1 : Nat) (exit2 : Nat) : Nat × Option PyError :=
  match check_call exit1 with
  | .error e => (1, some e)
  | .ok r => if r ≠ 0 then (2, none) else (1, none)

/-- Prefix test on character lists: does `sub` occur at the head of `hay`? -/
def beginsWith : List Char → List Char → Bool
  | [], _ => true
  | _ :: _, [] => false
  | a :: as, b :: bs => a == b && beginsWith as bs

/-- First index at or after `i` where `sub` occurs in the haystack. -/
def findFrom (sub : List Char) : List Char → Nat → Option Nat
  | [], i => if beginsWith sub [] then some i else none
  | c :: t, i => if beginsWith sub (c :: t) then some i else findFrom sub t (i + 1)

/-- Python `hay.find(sub)`: the least index where `sub` occurs in `hay`,
or `-1` when it does not occur. -/
def pyFind (hay sub : String) : Int :=
  match findFrom sub.data hay.data 0 with
  | some i => (i : Int)
  | none => -1

/-- The `_list_valid_fields` (lines 134-145): validates the endpoint name
against `VALID_ENDPOINTS` (passed as the singleton list `[endpoint_name]`),
then returns the field names of the endpoint's `_mapping` resource.
The mapping returned by the network is the `mapping` parameter. -/
def _list_valid_fields (endpoint_name : String) (mapping : List String) :
    Except PyError (List String) := do
  let _ ← _verify_data_list (.list [endpoint_name]) VALID_ENDPOINTS defaultInvalidMsg
  pure mapping

/-- The `_search_for_field` (lines 129-131): the valid field names whose
`find(search_string)` is strictly positive. -/
def _search_for_field (search_string : String) (endpoint_name : String)
    (mapping : List String) : Except PyError (List String) := do
  let fields ← _list_valid_fields endpoint_name mapping
  pure (fields.filter (fun field => pyFind field search_string > 0))

/-- The message of the `ValueError` raised by `_verify_field_name`
(line 223): `'Field given was not valid: {given}. \n Some close matches:
\n\t{matches}'` with the matches joined by `'\n\t'`. -/
def invalidFieldMsg (given : String) (ms : List String) : String :=
  "Field given was not valid: " ++ given ++ ". \n Some close matches: \n\t" ++
    String.intercalate "\n\t" ms

/-- The `_verify_field_name` (lines 203-225): check `field_name` (a bare
string) against the endpoint's valid fields; on `ValueError`, search for
close matches and raise a `ValueError` listing them.  Only `ValueError` is
caught by the `except` clause; any other exception propagates. -/
def _verify_field_name (field_name : String) (endpoint_name : String)
    (mapping : List String) : Except PyError Bool :=
  match (do
      let fields ← _list_valid_fields endpoint_name mapping
      _verify_data_list (.str field_name) fields defaultInvalidMsg) with
  | .ok found => .ok found
  | .error (.valueError _) =>
      match _search_for_field field_name endpoint_name mapping with
      | .ok possible_matches =>
          .error (.valueError (invalidFieldMsg field_name possible_matches))
      | .error e => .error e
  | .error e => .error e

/-- The `_verify_field_values` (lines 227-246): verify the field name, then
check each requested value against the field's valid options
(`valid_options` stands for the facet values the network returns). -/
def _verify_field_values (data_list : PyVal) (field_name : String)
    (endpoint_name : String) (mapping : List String)
    (valid_options : List String) : Except PyError Bool := do
  let _ ← _verify_field_name field_name endpoint_name mapping
  _verify_data_list data_list valid_options defaultInvalidMsg

/-- The filter-expression trees built by `_construct_filter_parameters`:
a node is either an `"op": "in"` leaf holding a field and a value, or an
`"op": "and"` node holding a list of children.  The value slot holds the
result of `_convert_to_list` (`None` or a list). -/
inductive FilterExpr where
  | inLeaf (field : String) (value : Option (List String))
  | andNode (content : List FilterExpr)

/-- The `filt_project` (lines 59-64): the always-present project leaf. -/
def filt_project (project_name : String) : FilterExpr :=
  .inLeaf "cases.project.project_id" (some [project_name])

/-- The `for field in query_params` loop of `_construct_filter_parameters`
(lines 68-77): for each keyword constraint, build the endpoint-prefixed
field name, verify the field and its values, and append an `in` leaf.
`options` gives the facet values the network reports for each field. -/
def buildContentFilters (endpoint_name : String) (mapping : List String)
    (options : String → List String) :
    List (String × PyVal) → Except PyError (List FilterExpr)
  | [] => pure []
  | (field, value) :: rest => do
      let field_name := endpoint_name ++ "." ++ field
      let _ ← _verify_field_values (toPyVal (_convert_to_list value)) field_name
        endpoint_name mapping (options field_name)
      let restFilters ← buildContentFilters endpoint_name mapping options rest
      pure (FilterExpr.inLeaf field_name (_convert_to_list value) :: restFilters)

/-- The `_construct_filter_parameters` (lines 45-81): the project leaf first,
then one leaf per keyword constraint, all under a single `and` node. -/
def _construct_filter_parameters (project_name : String) (endpoint_name : String)
    (kwargs : List (String × PyVal)) (mapping : List String)
    (options : String → List String) : Except PyError FilterExpr := do
  let content ← buildContentFilters endpoint_name mapping options kwargs
  pure (FilterExpr.andNode (filt_project project_name :: content))

/-- Writing a list of lines to the output buffer, each terminated by a
single `'\n'` (the `[output.write(line+'\n') for line in response_text]`
comprehension on line 327). -/
def linesText : List String → String
  | [] => ""
  | line :: rest => line ++ "\n" ++ linesText rest

/-- The `del response_text[0]` (line 326): drops the first element, raising
`IndexError` on an empty list. -/
def delHead : List String → Except PyError (List String)
  | [] => .error .indexError
  | _ :: rest => .ok rest

/-- The page loop of `get_manifest` (lines 322-327).  `pageLines page` is
`response.text.splitlines()` for that page of the paginated source.  For
every page after page 0 the first line (the header) is deleted before the
lines are written to the output. -/
def get_manifest_loop (pageLines : Nat → List String) :
    List Nat → Except PyError String
  | [] => pure ""
  | page :: rest => do
      let response_text := pageLines page
      let response_text ← if page > 0 then delHead response_text else pure response_text
      let tailText ← get_manifest_loop pageLines rest
      pure (linesText response_text ++ tailText)

/-- The `if not(pages): pages = _get_num_pages(...)` step of `get_manifest`
(lines 320-321): `None` and `0` are both falsy, so either one is replaced
by the server-reported total page count. -/
def pagesToUse : Option Nat → Nat → Nat
  | Option.none, server_pages => server_pages
  | Option.some 0, server_pages => server_pages
  | Option.some (n + 1), _ => n + 1

/-- The `get_manifest` (lines 313-328): resolve the page count, then iterate
`np.arange(pages)` assembling the manifest text.  `server_pages` is the
page total `_get_num_pages` would report. -/
def get_manifest (pageLines : Nat → List String) (server_pages : Nat)
    (pages : Option Nat) : Except PyError String :=
  get_manifest_loop pageLines (List.range (pagesToUse pages server_pages))

/-- One row of the tab-separated manifest as read back by
`_read_manifest_data`; only the columns `verify_download` uses. -/
structure ManifestRow where
  id : String
  filename : String
deriving DecidableEq, Repr

/-- The `os.path.join` of two path segments. -/
def pathJoin (a b : String) : String := a ++ "/" ++ b

/-- The `_verify_download_single_file` (lines 396-400): does
`data_dir/<row.id>/<row.filename>` exist?  `fileExists` is the
filesystem's `os.path.exists`. -/
def _verify_download_single_file (row : ManifestRow) (data_dir : String)
    (fileExists : String → Bool) : Bool :=
  fileExists (pathJoin (pathJoin data_dir row.id) row.filename)

/-- The `verify_download` (lines 403-413): every manifest row's file must
exist; otherwise a `ValueError` is raised. -/
def verify_download (manifest_data : List ManifestRow) (data_dir : String)
    (fileExists : String → Bool) : Except PyError Bool :=
  if manifest_data.all (fun row => _verify_download_single_file row data_dir fileExists) then
    .ok true
  else
    .error (.valueError "Some files failed to download.")

end QueryTcga

namespace QueryTcga

/-- Reduction of `>>=` on a successful `Except`. -/
theorem okBind {ε α β : Type} (a : α) (f : α → Except ε β) :
    (Except.ok a >>= f : Except ε β) = f a := rfl

/-- Reduction of `>>=` on a failed `Except`. -/
theorem errorBind {ε α β : Type} (e : ε) (f : α → Except ε β) :
    ((Except.error e : Except ε α) >>= f) = .error e := rfl

/-- Any falsy value is converted to `None`. -/
theorem convert_to_list_falsy {x : PyVal} (h : pyFalsy x = true) :
    _convert_to_list x = Option.none := by
  simp [_convert_to_list, h]

/-- A non-empty string is wrapped into a singleton list. -/
theorem convert_to_list_str_of_ne {s : String} (h : s ≠ "") :
    _convert_to_list (.str s) = some [s] := by
  simp [_convert_to_list, pyFalsy, h]

/-- A non-empty list is returned unchanged. -/
theorem convert_to_list_list_of_ne {xs : List String} (h : xs ≠ []) :
    _convert_to_list (.list xs) = some xs := by
  cases xs with
  | nil => exact absurd rfl h
  | cons a t => simp [_convert_to_list, pyFalsy]

/-- The `_verify_data_list` succeeds when the converted input is a list of
allowed values. -/
theorem verify_data_list_ok_of {x : PyVal} {xs allowed : List String}
    {message : String} (hx : _convert_to_list x = some xs)
    (hall : ∀ v ∈ xs, v ∈ allowed) :
    _verify_data_list x allowed message = .ok true := by
  have hb : xs.all (fun el => allowed.contains el) = true :=
    List.all_eq_true.mpr fun v hv => List.elem_eq_true_of_mem (hall v hv)
  simp [_verify_data_list, hx, hb]
  exact hall

/-- The `_verify_data_list` raises the enumerating `ValueError` when some
converted element is not allowed. -/
theorem verify_data_list_invalid_of {x : PyVal} {xs allowed : List String}
    {message : String} (hx : _convert_to_list x = some xs)
    (hbad : ∃ v ∈ xs, v ∉ allowed) :
    _verify_data_list x allowed message =
      .error (.valueError (message ++ ": " ++
        String.intercalate ", " (xs.filter (fun el => !(allowed.contains el))))) := by
  obtain ⟨v, hv, hnv⟩ := hbad
  have hb : xs.all (fun el => allowed.contains el) = false := by
    rcases h : xs.all (fun el => allowed.contains el) with _ | _
    · rfl
    · exact absurd (List.mem_of_elem_eq_true (List.all_eq_true.mp h v hv)) hnv
  simp [_verify_data_list, hx, hb]
  exact ⟨v, hv, hnv⟩

/-- The `_verify_data_list` raises `TypeError` when the input converts to
`None`. -/
theorem verify_data_list_typeError_of {x : PyVal} {allowed : List String}
    {message : String} (hx : _convert_to_list x = Option.none) :
    _verify_data_list x allowed message = .error .typeError := by
  simp [_verify_data_list, hx]

/-- With a valid endpoint name, `_list_valid_fields` returns the mapping's
field names. -/
theorem list_valid_fields_ok (endpoint : String) (mapping : List String)
    (he : endpoint ∈ VALID_ENDPOINTS) :
    _list_valid_fields endpoint mapping = .ok mapping := by
  have h : _verify_data_list (.list [endpoint]) VALID_ENDPOINTS defaultInvalidMsg
      = .ok true :=
    verify_data_list_ok_of (convert_to_list_list_of_ne (by simp))
      (by intro v hv; simp at hv; subst hv; exact he)
  simp [_list_valid_fields, h, okBind]

/-- With a valid endpoint, a non-empty field name present in the mapping
passes `_verify_field_name`. -/
theorem verify_field_name_ok {field endpoint : String} {mapping : List String}
    (hf : field ∈ mapping) (hfe : field ≠ "") (he : endpoint ∈ VALID_ENDPOINTS) :
    _verify_field_name field endpoint mapping = .ok true := by
  have h1 := list_valid_fields_ok endpoint mapping he
  have h2 : _verify_data_list (.str field) mapping defaultInvalidMsg = .ok true :=
    verify_data_list_ok_of (convert_to_list_str_of_ne hfe)
      (by intro v hv; simp at hv; subst hv; exact hf)
  simp [_verify_field_name, h1, h2, okBind]

/-- With a valid endpoint, a non-empty field name absent from the mapping
makes `_verify_field_name` raise the `ValueError` whose suggestion list is
exactly the mapping entries where the input occurs at a strictly positive
index. -/
theorem verify_field_name_invalid {field endpoint : String} {mapping : List String}
    (hf : field ∉ mapping) (hfe : field ≠ "") (he : endpoint ∈ VALID_ENDPOINTS) :
    _verify_field_name field endpoint mapping =
      .error (.valueError (invalidFieldMsg field
        (mapping.filter (fun f => pyFind f field > 0)))) := by
  have h1 := list_valid_fields_ok endpoint mapping he
  have h2 : _verify_data_list (.str field) mapping defaultInvalidMsg =
      .error (.valueError (defaultInvalidMsg ++ ": " ++
        String.intercalate ", " ([field].filter (fun el => !(mapping.contains el))))) :=
    verify_data_list_invalid_of (convert_to_list_str_of_ne hfe) ⟨field, by simp, hf⟩
  simp [_verify_field_name, h1, h2, okBind, _search_for_field]

/-- A dotted field name built by `_construct_filter_parameters` is never
the empty string. -/
theorem dotted_ne_empty (a b : String) : a ++ "." ++ b ≠ "" := by
  intro h
  have h2 := congrArg String.length h
  rw [String.length_append, String.length_append] at h2
  have e1 : String.length "." = 1 := rfl
  have e2 : String.length "" = 0 := rfl
  omega

/-- The `linesText` distributes over list concatenation. -/
theorem linesText_append (l1 l2 : List String) :
    linesText (l1 ++ l2) = linesText l1 ++ linesText l2 := by
  induction l1 with
  | nil => simp [linesText]
  | cons a t ih => simp [linesText, ih, String.append_assoc]

/-- C7 -- `_convert_to_list` is idempotent on `None`, strings, lists and
tuples, and every falsy input maps to `None`, never to an empty list. -/
theorem convert_to_list_idempotent_and_falsy_to_none (x : PyVal) :
    _convert_to_list (toPyVal (_convert_to_list x)) = _convert_to_list x ∧
    (pyFalsy x = true → _convert_to_list x = Option.none) := by
  constructor
  · cases x with
    | none => rfl
    | str s =>
        by_cases h : s = ""
        · subst h; rfl
        · simp [_convert_to_list, pyFalsy, toPyVal, h]
    | list xs =>
        cases xs with
        | nil => rfl
        | cons a t => simp [_convert_to_list, pyFalsy, toPyVal]
    | tuple xs =>
        cases xs with
        | nil => rfl
        | cons a t => simp [_convert_to_list, pyFalsy, toPyVal]
  · intro h
    cases x with
    | none => rfl
    | str s => simp [_convert_to_list, h]
    | list xs => simp [_convert_to_list, h]
    | tuple xs => simp [_convert_to_list, h]

/-- Witness for C7 at the concrete falsy input `[]`. -/
theorem convert_to_list_idempotent_witness :
    _convert_to_list (toPyVal (_convert_to_list (PyVal.list []))) =
      _convert_to_list (PyVal.list []) ∧
    _convert_to_list (PyVal.list []) = Option.none :=
  ⟨(convert_to_list_idempotent_and_falsy_to_none (PyVal.list [])).1,
   (convert_to_list_idempotent_and_falsy_to_none (PyVal.list [])).2 (by decide)⟩

/-- C10 -- on any falsy `data_list` (empty list, empty string, `None`),
`_verify_data_list` neither returns `True` nor raises the enumerating
`ValueError`: `_convert_to_list` normalizes the input to `None` and the
membership check then raises `TypeError`. -/
theorem verify_data_list_falsy_type_error (x : PyVal) (allowed : List String)
    (message : String) (h : pyFalsy x = true) :
    _verify_data_list x allowed message = .error .typeError ∧
    _verify_data_list x allowed message ≠ .ok true ∧
    (∀ s : String, _verify_data_list x allowed message ≠ .error (.valueError s)) := by
  have hconv : _convert_to_list x = Option.none := by
    cases x with
    | none => rfl
    | str s => simp [_convert_to_list, h]
    | list xs => simp [_convert_to_list, h]
    | tuple xs => simp [_convert_to_list, h]
  refine ⟨?_, ?_, ?_⟩
  · simp [_verify_data_list, hconv]
  · simp [_verify_data_list, hconv]
  · intro s
    simp [_verify_data_list, hconv]

/-- Witness for C10: the empty list against a non-trivial domain. -/
theorem verify_data_list_falsy_type_error_witness :
    _verify_data_list (PyVal.list []) ["Clinical"] defaultInvalidMsg
      = .error .typeError :=
  (verify_data_list_falsy_type_error (PyVal.list []) ["Clinical"]
    defaultInvalidMsg (by decide)).1

/-- C3 counterexample -- when the first invocation fails (exit status 1),
`subprocess.check_call` raises `CalledProcessError` and the tool is invoked
exactly once, not twice: the claimed blind retry never runs. -/
theorem download_retry_counterexample :
    (_download_files_toolCalls 1 0).1 = 1 ∧
    (_download_files_toolCalls 1 0).1 ≠ 2 ∧
    (_download_files_toolCalls 1 0).2 = some (PyError.calledProcessError 1) := by
  decide

/-- C3 amended -- in every run of `_download_files` the external tool is
invoked exactly once: on exit status 0 `check_call` returns the falsy value
0 so the `if` guarding the second call is never taken, and on a non-zero
exit status `check_call` raises, aborting before any second call.
No error propagates iff the first exit status is 0. -/
theorem download_tool_invoked_exactly_once (exit1 exit2 : Nat) :
    (_download_files_toolCalls exit1 exit2).1 = 1 ∧
    ((_download_files_toolCalls exit1 exit2).2 = Option.none ↔ exit1 = 0) := by
  by_cases h : exit1 = 0
  · subst h
    constructor
    · rfl
    · simp [_download_files_toolCalls, check_call]
  · constructor
    · simp [_download_files_toolCalls, check_call, h]
    · simp [_download_files_toolCalls, check_call, h]

/-- C4 -- for every project name, `_construct_filter_parameters` returns a
single top-level `and` node whose first leaf is
`cases.project.project_id IN [project]`; with zero extra constraints the
expression contains exactly this one leaf. -/
theorem construct_filter_project_leaf_first (project endpoint : String)
    (kwargs : List (String × PyVal)) (mapping : List String)
    (options : String → List String) :
    _construct_filter_parameters project endpoint [] mapping options =
      .ok (.andNode [.inLeaf "cases.project.project_id" (some [project])]) ∧
    (∀ filt, _construct_filter_parameters project endpoint kwargs mapping options = .ok filt →
      ∃ rest, filt =
        .andNode (.inLeaf "cases.project.project_id" (some [project]) :: rest)) := by
  constructor
  · rfl
  · intro filt h
    unfold _construct_filter_parameters at h
    cases hb : buildContentFilters endpoint mapping options kwargs with
    | ok content =>
        rw [hb, okBind] at h
        injection h with h2
        exact ⟨content, h2.symm⟩
    | error e =>
        rw [hb, errorBind] at h
        exact Except.noConfusion h

/-- Witness for C4 at project `TCGA-BLCA`, zero constraints. -/
theorem construct_filter_project_leaf_first_witness :
    ∃ rest, FilterExpr.andNode
        [FilterExpr.inLeaf "cases.project.project_id" (some ["TCGA-BLCA"])] =
      FilterExpr.andNode
        (FilterExpr.inLeaf "cases.project.project_id" (some ["TCGA-BLCA"]) :: rest) :=
  (construct_filter_project_leaf_first "TCGA-BLCA" "files" [] [] (fun _ => [])).2 _ rfl

/-- C2 counterexample -- an empty value list for a valid field is *not*
normalized to an absent constraint: `_construct_filter_parameters` raises
`TypeError` (via `_verify_data_list` iterating over `None`), so its result
differs from the filter built without the constraint. -/
theorem construct_filter_empty_value_counterexample :
    _construct_filter_parameters "TCGA-BLCA" "files" [("data_category", PyVal.list [])]
        ["files.data_category"] (fun _ => ["Clinical"]) = .error .typeError ∧
    _construct_filter_parameters "TCGA-BLCA" "files" []
        ["files.data_category"] (fun _ => ["Clinical"]) =
      .ok (.andNode [.inLeaf "cases.project.project_id" (some ["TCGA-BLCA"])]) ∧
    _construct_filter_parameters "TCGA-BLCA" "files" [("data_category", PyVal.list [])]
        ["files.data_category"] (fun _ => ["Clinical"]) ≠
      _construct_filter_parameters "TCGA-BLCA" "files" []
        ["files.data_category"] (fun _ => ["Clinical"]) := by
  refine ⟨rfl, rfl, fun h => ?_⟩
  rw [show _construct_filter_parameters "TCGA-BLCA" "files"
        [("data_category", PyVal.list [])] ["files.data_category"]
        (fun _ => ["Clinical"]) = .error .typeError from rfl,
      show _construct_filter_parameters "TCGA-BLCA" "files" []
        ["files.data_category"] (fun _ => ["Clinical"]) =
        .ok (.andNode [.inLeaf "cases.project.project_id" (some ["TCGA-BLCA"])])
        from rfl] at h
  exact Except.noConfusion h

/-- C2 amended -- a falsy constraint value (empty list, empty string,
`None`) on a valid field is normalized to `None` by `_convert_to_list`,
and the value check then raises `TypeError`: the constraint is neither
emitted as a leaf nor silently dropped, and no filter is returned. -/
theorem construct_filter_falsy_value_raises (project endpoint field : String)
    (value : PyVal) (rest : List (String × PyVal)) (mapping : List String)
    (options : String → List String)
    (hv : pyFalsy value = true) (he : endpoint ∈ VALID_ENDPOINTS)
    (hf : endpoint ++ "." ++ field ∈ mapping) :
    _construct_filter_parameters project endpoint ((field, value) :: rest)
      mapping options = .error .typeError := by
  have hc : _convert_to_list value = Option.none := convert_to_list_falsy hv
  have hvfn := verify_field_name_ok hf (dotted_ne_empty endpoint field) he
  have hvfv : _verify_field_values (toPyVal (_convert_to_list value))
      (endpoint ++ "." ++ field) endpoint mapping
      (options (endpoint ++ "." ++ field)) = .error .typeError := by
    rw [hc]
    simp [_verify_field_values, hvfn, okBind]
    exact verify_data_list_typeError_of rfl
  simp [_construct_filter_parameters, buildContentFilters, hvfv, errorBind]

/-- Witness for the amended C2: an empty `data_category` list. -/
theorem construct_filter_falsy_value_raises_witness :
    _construct_filter_parameters "TCGA-BLCA" "files" [("data_category", PyVal.list [])]
      ["files.data_category"] (fun _ => ["Clinical"]) = .error .typeError :=
  construct_filter_falsy_value_raises "TCGA-BLCA" "files" "data_category"
    (PyVal.list []) [] ["files.data_category"] (fun _ => ["Clinical"])
    (by decide) (by decide) (by decide)

/-- C5 -- `_verify_field_values` validates the field name first (an invalid
field fails with the field error regardless of the values), and with a
valid field and at least one value outside the discovered domain it fails
with a `ValueError` that enumerates every invalid value, comma-joined, in
the original input order; none of the enumerated values is valid. -/
theorem verify_field_values_enumerates_invalid (values : List String)
    (field endpoint : String) (mapping options : List String)
    (hne : values ≠ []) (hfe : field ≠ "") (he : endpoint ∈ VALID_ENDPOINTS) :
    (field ∉ mapping →
      _verify_field_values (.list values) field endpoint mapping options =
        .error (.valueError (invalidFieldMsg field
          (mapping.filter (fun f => pyFind f field > 0))))) ∧
    (field ∈ mapping → (∃ v ∈ values, v ∉ options) →
      _verify_field_values (.list values) field endpoint mapping options =
        .error (.valueError (defaultInvalidMsg ++ ": " ++
          String.intercalate ", " (values.filter (fun v => !(options.contains v))))) ∧
      ∀ v ∈ values.filter (fun v => !(options.contains v)), v ∉ options) := by
  constructor
  · intro hf
    have h := verify_field_name_invalid hf hfe he
    simp [_verify_field_values, h, errorBind]
  · intro hf hbad
    have h1 := verify_field_name_ok hf hfe he
    have h2 : _verify_data_list (PyVal.list values) options defaultInvalidMsg =
        .error (.valueError (defaultInvalidMsg ++ ": " ++
          String.intercalate ", " (values.filter (fun v => !(options.contains v))))) :=
      verify_data_list_invalid_of (convert_to_list_list_of_ne hne) hbad
    refine ⟨by simp [_verify_field_values, h1, h2, okBind], ?_⟩
    intro v hv
    have hv2 := List.of_mem_filter hv
    intro hmem
    rw [show options.contains v = true from List.elem_eq_true_of_mem hmem] at hv2
    exact Bool.noConfusion hv2

/-- Witness for C5: one valid and one invalid value; the message holds
exactly the invalid one. -/
theorem verify_field_values_enumerates_invalid_witness :
    _verify_field_values (.list ["Clinical", "Bogus"]) "files.data_category"
      "files" ["files.data_category"] ["Clinical", "Biospecimen"] =
      .error (.valueError "At least one value given was invalid: Bogus") := by
  have h := (verify_field_values_enumerates_invalid ["Clinical", "Bogus"]
      "files.data_category" "files" ["files.data_category"]
      ["Clinical", "Biospecimen"] (by decide) (by decide) (by decide)).2
      (by decide) ⟨"Bogus", by decide, by decide⟩
  rw [h.1]
  rfl

/-- C6 counterexample -- the field `files` is invalid for a mapping
containing `files.data_category`, which contains `files` as a substring
(at index 0), yet the failure's suggestion list is empty: the suggestions
are not all the substring matches. -/
theorem verify_field_name_suggestion_counterexample :
    _verify_field_name "files" "files" ["files.data_category"] =
      .error (.valueError (invalidFieldMsg "files" [])) ∧
    "files.data_category" = "files" ++ ".data_category" ∧
    "files" ∉ ["files.data_category"] := by
  refine ⟨rfl, rfl, by decide⟩

/-- C6 amended -- for every non-empty field name absent from the
endpoint's mapping, `_verify_field_name` fails with a `ValueError` whose
suggestion list is exactly the valid field names in which the input occurs
at a strictly positive index (`find > 0`, so matches at index 0 are
excluded); when no such match exists, the suggestion list is empty and the
failure is still the same `ValueError`. -/
theorem verify_field_name_suggestions (field endpoint : String)
    (mapping : List String) (hfe : field ≠ "")
    (he : endpoint ∈ VALID_ENDPOINTS) (hf : field ∉ mapping) :
    _verify_field_name field endpoint mapping =
      .error (.valueError (invalidFieldMsg field
        (mapping.filter (fun f => pyFind f field > 0)))) ∧
    ∀ f, f ∈ mapping.filter (fun f => pyFind f field > 0) ↔
      f ∈ mapping ∧ pyFind f field > 0 := by
  refine ⟨verify_field_name_invalid hf hfe he, fun f => ?_⟩
  rw [List.mem_filter]
  simp

/-- Witness for the amended C6: `data_category` occurs at index 6 of
`files.data_category`, so the suggestion list holds it. -/
theorem verify_field_name_suggestions_witness :
    _verify_field_name "data_category" "files" ["files.data_category"] =
      .error (.valueError
        "Field given was not valid: data_category. \n Some close matches: \n\tfiles.data_category") := by
  have h := (verify_field_name_suggestions "data_category" "files"
      ["files.data_category"] (by decide) (by decide) (by decide)).1
  rw [h]
  rfl

/-- Over a list of page indices that are all positive and whose pages are
all non-empty, the manifest loop deletes exactly the first line of each
page and writes the rest in order. -/
theorem get_manifest_loop_tail (f : Nat → List String) (ps : List Nat)
    (h0 : ∀ p ∈ ps, 0 < p) (hne : ∀ p ∈ ps, f p ≠ []) :
    get_manifest_loop f ps = .ok (linesText (ps.flatMap (fun p => (f p).tail))) := by
  induction ps with
  | nil => rfl
  | cons p rest ih =>
      have hp : 0 < p := h0 p (List.mem_cons_self p rest)
      have hfp : f p ≠ [] := hne p (List.mem_cons_self p rest)
      have ihr := ih (fun q hq => h0 q (List.mem_cons_of_mem p hq))
        (fun q hq => hne q (List.mem_cons_of_mem p hq))
      cases hfl : f p with
      | nil => exact absurd hfl hfp
      | cons a t =>
          simp [get_manifest_loop, hp, hfl, delHead, ihr, okBind, linesText_append]

/-- C1 -- for every paginated source and provided page count `pages >= 1`
(with every page after the first non-empty), `get_manifest` keeps all of
page 0 including its header line, discards exactly the first line of every
later page, preserves the per-page line order in the concatenation, and
terminates every output line with a single newline. -/
theorem get_manifest_keeps_single_header (f : Nat → List String)
    (server_pages pages : Nat) (h1 : 1 ≤ pages)
    (hne : ∀ p, 1 ≤ p → p < pages → f p ≠ []) :
    get_manifest f server_pages (some pages) =
      .ok (linesText (f 0 ++
        (List.range' 1 (pages - 1)).flatMap (fun p => (f p).tail))) := by
  obtain ⟨k, rfl⟩ : ∃ k, pages = k + 1 := ⟨pages - 1, by omega⟩
  have hrange : List.range (k + 1) = 0 :: List.range' 1 k := by
    rw [List.range_eq_range', List.range'_succ]
  have hloop := get_manifest_loop_tail f (List.range' 1 k)
    (fun p hp => by have := List.mem_range'_1.mp hp; omega)
    (fun p hp => by
      have h2 := List.mem_range'_1.mp hp
      exact hne p h2.1 (by omega))
  have hpu : pagesToUse (some (k + 1)) server_pages = k + 1 := rfl
  unfold get_manifest
  rw [hpu, hrange]
  simp [get_manifest_loop, hloop, okBind, linesText_append]

/-- Witness for C1: 3 pages of 1 header row and 2 data rows each yield
exactly 1 header line followed by 6 data lines in per-page order. -/
theorem get_manifest_keeps_single_header_witness :
    get_manifest (fun page =>
        if page = 0 then ["id\tfilename", "a1", "a2"]
        else if page = 1 then ["id\tfilename", "b1", "b2"]
        else if page = 2 then ["id\tfilename", "c1", "c2"]
        else []) 99 (some 3) =
      .ok "id\tfilename\na1\na2\nb1\nb2\nc1\nc2\n" := by
  have h := get_manifest_keeps_single_header (fun page =>
      if page = 0 then ["id\tfilename", "a1", "a2"]
      else if page = 1 then ["id\tfilename", "b1", "b2"]
      else if page = 2 then ["id\tfilename", "c1", "c2"]
      else []) 99 3 (by decide)
    (by intro p hp1 hp2; interval_cases p <;> decide)
  rw [h]
  rfl

/-- C9 -- `get_manifest` with `pages = 0` behaves exactly like
`pages = None`: the falsy page count is replaced by the server-reported
total, and the loop runs over that many pages rather than zero. -/
theorem get_manifest_zero_pages_means_server_total (f : Nat → List String)
    (server_pages : Nat) :
    get_manifest f server_pages (some 0) = get_manifest f server_pages Option.none ∧
    get_manifest f server_pages (some 0) =
      get_manifest_loop f (List.range server_pages) ∧
    pagesToUse (some 0) server_pages = server_pages :=
  ⟨rfl, rfl, rfl⟩

/-- C8 -- `verify_download` returns `True` iff every manifest row's file
exists at `data_dir/<id>/<filename>`; when any row's file is missing it
raises the `ValueError` instead of returning. -/
theorem verify_download_complete_iff (rows : List ManifestRow)
    (data_dir : String) (fileExists : String → Bool) :
    (verify_download rows data_dir fileExists = .ok true ↔
      ∀ row ∈ rows,
        fileExists (pathJoin (pathJoin data_dir row.id) row.filename) = true) ∧
    ((∃ row ∈ rows,
        fileExists (pathJoin (pathJoin data_dir row.id) row.filename) = false) →
      verify_download rows data_dir fileExists =
        .error (.valueError "Some files failed to download.")) := by
  constructor
  · constructor
    · intro h row hrow
      rcases hb : rows.all
          (fun row => _verify_download_single_file row data_dir fileExists) with _ | _
      · rw [verify_download, hb] at h
        exact Except.noConfusion h
      · exact List.all_eq_true.mp hb row hrow
    · intro h
      have hb : rows.all
          (fun row => _verify_download_single_file row data_dir fileExists) = true :=
        List.all_eq_true.mpr fun row hrow => h row hrow
      rw [verify_download, hb]
      rfl
  · rintro ⟨row, hrow, hex⟩
    have hb : rows.all
        (fun row => _verify_download_single_file row data_dir fileExists) = false := by
      rcases h : rows.all
          (fun row => _verify_download_single_file row data_dir fileExists) with _ | _
      · rfl
      · have h2 := List.all_eq_true.mp h row hrow
        rw [_verify_download_single_file] at h2
        rw [h2] at hex
        exact Bool.noConfusion hex
    rw [verify_download, hb]
    rfl

/-- Witness for C8: a missing file fails, an empty manifest verifies. -/
theorem verify_download_complete_iff_witness :
    verify_download [⟨"id1", "f1"⟩] "data/gdc" (fun _ => false) =
      .error (.valueError "Some files failed to download.") ∧
    verify_download [] "data/gdc" (fun _ => false) = .ok true :=
  ⟨(verify_download_complete_iff [⟨"id1", "f1"⟩] "data/gdc" (fun _ => false)).2
      ⟨⟨"id1", "f1"⟩, by decide, rfl⟩,
   (verify_download_complete_iff [] "data/gdc" (fun _ => false)).1.mpr
      (fun row hrow => absurd hrow (List.not_mem_nil row))⟩

end QueryTcga
